import Mathlib

/-!
Verification of the tracker-sync-board state synchronization core.

The development shallowly embeds the state store of `src/extension.ts`
(types `TrackerTask`, `TrackerMessage`, `TrackerState`; functions
`defaultState`, `TrackerStateStore.normalize`, `TrackerStateStore.read`,
`TrackerStateStore.write`, `TrackerDashboardProvider.processHumanMessages`,
`TrackerDashboardProvider.seedRoadmap`) and the webview-side operations of
`media/dashboard.js` (`saveState`, `nextLane`, the advance and block
action handlers).  Wall-clock reads (`new Date().toISOString()`) become
explicit `String` parameters; each distinct runtime clock read is a
distinct parameter.  Fresh-id generation (`msg-${Date.now()}`) becomes a
`String` parameter as well.  Operator interaction (quick pick, input box,
confirmation dialog) becomes `Option String` / `Bool` parameters.
-/

namespace TrackerSync

/-- Task lanes, from the union type `TaskLane = "todo" | "progress" | "done"`. -/
inductive TaskLane
  | todo
  | progress
  | done
deriving DecidableEq, Repr

/-- Task owners and message endpoints, from `TaskOwner = "human" | "ai"`. -/
inductive TaskOwner
  | human
  | ai
deriving DecidableEq, Repr

/-- Task statuses, from `TaskStatus = "todo" | "progress" | "done" | "blocked"`. -/
inductive TaskStatus
  | todo
  | progress
  | done
  | blocked
deriving DecidableEq, Repr

/-- Task priorities, from `TaskPriority = "p0" | "p1" | "p2"`. -/
inductive TaskPriority
  | p0
  | p1
  | p2
deriving DecidableEq, Repr

/-- Embeds the `TrackerTask` interface; optional fields become `Option`. -/
structure TrackerTask where
  id : String
  title : String
  note : Option String
  owner : TaskOwner
  lane : TaskLane
  status : TaskStatus
  effort : Option String
  milestone : Option String
  priority : Option TaskPriority
  createdAt : Option String
deriving DecidableEq, Repr

/-- Embeds the `TrackerMessage` interface.  The field `from` is a Lean
keyword, so it is rendered `from_`. -/
structure TrackerMessage where
  id : String
  from_ : TaskOwner
  to_ : TaskOwner
  type : String
  title : String
  body : String
  createdAt : String
  resolved : Bool
  inReplyTo : Option String
deriving DecidableEq, Repr

/-- Embeds the `TrackerState` interface, the persisted document shape:
exactly the four top-level fields `revision`, `updatedAt`, `tasks`,
`messages`.  `revision` is declared `number` in the source and used as an
integer counter; it is modelled as `Int`. -/
structure TrackerState where
  revision : Int
  updatedAt : String
  tasks : List TrackerTask
  messages : List TrackerMessage
deriving DecidableEq, Repr

/-- Shape of the `revision` field of an arbitrary decoded JSON value, as
`normalize` discriminates it: a finite number
(`typeof v === "number" && Number.isFinite(v)`), a non-finite number
(`NaN`/`Infinity`), or anything else including an absent field. -/
inductive RawRevision
  | fin (n : Int)
  | nonFinite
  | absent
deriving DecidableEq, Repr

/-- Shape of the `updatedAt` field of an arbitrary decoded value: a string,
or anything else including an absent field. -/
inductive RawUpdatedAt
  | str (s : String)
  | absent
deriving DecidableEq, Repr

/-- Shape of the `tasks` field of an arbitrary decoded value: an array
(whose elements are passed through untouched), or anything else. -/
inductive RawTasks
  | arr (xs : List TrackerTask)
  | absent
deriving DecidableEq, Repr

/-- Shape of the `messages` field of an arbitrary decoded value. -/
inductive RawMessages
  | arr (xs : List TrackerMessage)
  | absent
deriving DecidableEq, Repr

/-- View of an arbitrary JavaScript value as `normalize` observes it after
`(raw ?? {}) as Partial<TrackerState>`: every JS value determines a
`RawDoc`, with `undefined`, `null` and non-objects determining the one
whose four fields are all `absent`. -/
structure RawDoc where
  revision : RawRevision
  updatedAt : RawUpdatedAt
  tasks : RawTasks
  messages : RawMessages
deriving DecidableEq, Repr

/-- Embeds `TrackerStateStore.normalize` (extension.ts lines 163-171).
`now` is the value of the `new Date().toISOString()` call on line 167,
used only when `updatedAt` is not a string. -/
def normalize (raw : RawDoc) (now : String) : TrackerState :=
  { revision := match raw.revision with
      | .fin n => n
      | .nonFinite => 1
      | .absent => 1
    updatedAt := match raw.updatedAt with
      | .str s => s
      | .absent => now
    tasks := match raw.tasks with
      | .arr xs => xs
      | .absent => []
    messages := match raw.messages with
      | .arr xs => xs
      | .absent => [] }

/-- View of a well-typed `TrackerState` as the raw value `write` hands to
`normalize`: its revision is a finite number, its `updatedAt` a string and
its `tasks`/`messages` arrays. -/
def stateToRaw (s : TrackerState) : RawDoc :=
  { revision := .fin s.revision
    updatedAt := .str s.updatedAt
    tasks := .arr s.tasks
    messages := .arr s.messages }

/-- Embeds `TrackerStateStore.write` (extension.ts lines 150-161): it
normalizes the input, overwrites `updatedAt` with the clock read of line
152 (`now`), and persists the result, returning it.  Directory creation
and the file write itself are I/O with no effect on the returned
document.  `normalize`'s internal clock read cannot fire here because
`stateToRaw` always supplies a string `updatedAt`, so `now` serves for
both reads. -/
def write (s : TrackerState) (now : String) : TrackerState :=
  let normalized := normalize (stateToRaw s) now
  { normalized with updatedAt := now }

/-- Embeds `defaultState` (extension.ts lines 43-124); `now` is the single
clock read on line 44, shared by `updatedAt` and every `createdAt`. -/
def defaultState (now : String) : TrackerState :=
  { revision := 1
    updatedAt := now
    tasks := [
      { id := "task-m1-ui-shell"
        title := "Stabilize dashboard shell and state flow"
        note := some "Polish webview rendering, persistence, and task interactions."
        owner := .ai
        lane := .progress
        status := .progress
        effort := some "1d"
        milestone := some "M1 Foundation"
        priority := some .p0
        createdAt := some now },
      { id := "task-m1-devloop"
        title := "Set up dev loop (run, build, package)"
        note := some "Add scripts + docs for quick extension development."
        owner := .human
        lane := .todo
        status := .todo
        effort := some "0.5d"
        milestone := some "M1 Foundation"
        priority := some .p1
        createdAt := some now },
      { id := "task-m2-sync"
        title := "Implement robust file-watch merge strategy"
        note := some "Handle concurrent edits and conflict messaging."
        owner := .ai
        lane := .todo
        status := .todo
        effort := some "1.5d"
        milestone := some "M2 Collaboration"
        priority := some .p0
        createdAt := some now },
      { id := "task-m2-aiops"
        title := "Create message processing workflow"
        note := some "Support human -> ai -> human cycle directly in dashboard."
        owner := .human
        lane := .progress
        status := .progress
        effort := some "1d"
        milestone := some "M2 Collaboration"
        priority := some .p1
        createdAt := some now },
      { id := "task-m3-release"
        title := "Add VSIX packaging and release CI"
        note := some "Prepare publish-ready pipeline and versioning."
        owner := .human
        lane := .todo
        status := .todo
        effort := some "1d"
        milestone := some "M3 Release"
        priority := some .p1
        createdAt := some now }
    ]
    messages := [
      { id := "msg-start"
        from_ := .ai
        to_ := .human
        type := "note"
        title := "Tracker v1 is ready"
        body := "Use this board to drive the extension roadmap. Start by finishing M1 Foundation tasks."
        createdAt := now
        resolved := false
        inReplyTo := none }
    ] }

/-- Outcome of `TrackerStateStore.read` (extension.ts lines 136-148):
the document it returns to the caller, and the document it wrote to disk
on the recovery path (`none` when no write happened). -/
structure ReadOutcome where
  returned : TrackerState
  written : Option TrackerState
deriving DecidableEq, Repr

/-- Embeds `TrackerStateStore.read` (extension.ts lines 136-148).
`parsed` is the result of the file read plus `JSON.parse`: `some raw` on
success, `none` when the file is missing, unreadable or malformed JSON
(any thrown error lands in the `catch`).  `tNow` is the clock read on the
taken branch (line 167's fallback inside `normalize` on the success path,
line 44 inside `defaultState` on the recovery path); `tWrite` is the
clock read inside the recovery `write` (line 152).  Note the recovery
path returns `created` itself, not the value `write` returned. -/
def read (parsed : Option RawDoc) (tNow tWrite : String) : ReadOutcome :=
  match parsed with
  | some raw => { returned := normalize raw tNow, written := none }
  | none =>
      let created := defaultState tNow
      { returned := created, written := some (write created tWrite) }

/-- Predicate from extension.ts line 225: a message is pending when
`m.from === "human" && m.to === "ai" && !m.resolved`. -/
def isPendingMsg (m : TrackerMessage) : Bool :=
  m.from_ == .human && m.to_ == .ai && !m.resolved

/-- Outcome of `TrackerDashboardProvider.processHumanMessages`: the
"no unresolved messages" advisory (line 228), an early exit with no
mutation (operator cancelled or gave an empty reply), or a successful run
carrying the document that was written and returned by the store. -/
inductive ProcessOutcome
  | nonePending
  | cancelled
  | wrote (s : TrackerState)
deriving DecidableEq, Repr

/-- Embeds `TrackerDashboardProvider.processHumanMessages` (extension.ts
lines 217-276) after the store read produced `s`.  `pick` is the quick
pick's answer (the id of the chosen item, `none` on cancel); `response`
is the input box's answer (`none` on cancel; the source's `!response`
check also rejects the empty string).  `freshId` stands for
`msg-${Date.now()}`, `nowMsg` for the clock read on line 268 and
`nowWrite` for the one inside `write`.  The in-place mutation
`source.resolved = true` of the message object shared between `pending`
and `state.messages` is rendered as an id-keyed functional update; for
documents with duplicate message ids this coarsens the aliasing
behaviour, so theorems about successful runs assume id uniqueness (the
spec's Message invariant). -/
def processHumanMessages (s : TrackerState) (pick response : Option String)
    (freshId nowMsg nowWrite : String) : ProcessOutcome :=
  let pending := s.messages.filter isPendingMsg
  if pending.length = 0 then .nonePending
  else
    match pick with
    | none => .cancelled
    | some pid =>
      match pending.find? (fun m => m.id == pid) with
      | none => .cancelled
      | some source =>
        match response with
        | none => .cancelled
        | some resp =>
          if resp = "" then .cancelled
          else
            let msgs := s.messages.map fun m =>
              if m.id == source.id then { m with resolved := true } else m
            let reply : TrackerMessage :=
              { id := freshId
                from_ := .ai
                to_ := .human
                type := "response"
                title := "Re: " ++ source.title
                body := resp
                createdAt := nowMsg
                resolved := false
                inReplyTo := some source.id }
            .wrote (write { s with messages := msgs ++ [reply],
                                   revision := s.revision + 1 } nowWrite)

/-- Embeds `TrackerDashboardProvider.seedRoadmap` (extension.ts lines
278-299) after the store read bound `prev` as the current document.
`confirmed` is true when the operator chose "Replace" in the modal
dialog; on confirmation the seed document is written, otherwise nothing
changes.  The result is the document on disk afterwards. -/
def seedRoadmap (confirmed : Bool) (prev : TrackerState) (tSeed tWrite : String) :
    TrackerState :=
  if confirmed then write (defaultState tSeed) tWrite else prev

/-- Embeds the webview's `saveState` (dashboard.js lines 194-198): stamp
`updatedAt`, compute `state.revision = (state.revision || 0) + 1` (the
`|| 0` fires exactly when the finite number `revision` is the falsy `0`),
and post the payload to the extension. -/
def saveStateWebview (s : TrackerState) (now : String) : TrackerState :=
  { s with updatedAt := now
           revision := (if s.revision = 0 then 0 else s.revision) + 1 }

/-- Composition of the save path: the webview's `saveState` posts its
payload, `TrackerDashboardProvider.saveFromWebview` (extension.ts lines
367-381) forwards a defined payload to `TrackerStateStore.write`, whose
result is the new stored document. -/
def saveStatePath (s : TrackerState) (tView tWrite : String) : TrackerState :=
  write (saveStateWebview s tView) tWrite

/-- Embeds the webview's `nextLane` (dashboard.js lines 45-49). -/
def nextLane (current : TaskLane) : TaskLane :=
  match current with
  | .todo => .progress
  | .progress => .done
  | .done => .done

/-- Embeds the `advance` action handler (dashboard.js lines 280-283):
`task.lane = nextLane(task.lane); task.status = task.lane === "done" ?
"done" : "progress"`. -/
def advance (t : TrackerTask) : TrackerTask :=
  let lane := nextLane t.lane
  { t with lane := lane
           status := if lane = .done then .done else .progress }

/-- Embeds the `block` action handler (dashboard.js lines 287-289):
`task.status = task.status === "blocked" ? (task.lane === "done" ?
"done" : "progress") : "blocked"`. -/
def toggleBlock (t : TrackerTask) : TrackerTask :=
  { t with status :=
      if t.status = .blocked then (if t.lane = .done then .done else .progress)
      else .blocked }

/-- Numeric position of a lane in the todo → progress → done progression,
used to state that `advance` never moves a task backwards. -/
def laneIdx (l : TaskLane) : Nat :=
  match l with
  | .todo => 0
  | .progress => 1
  | .done => 2

/-- Lexicographic strict comparison of character sequences by code point.
On ISO-8601 timestamps of equal format (the shape every clock read
`new Date().toISOString()` produces) this is exactly the chronological
order, so it renders the spec's "greater than or equal" on `updatedAt`
values. -/
def chronoLtB : List Char → List Char → Bool
  | [], [] => false
  | [], _ :: _ => true
  | _ :: _, [] => false
  | a :: as, b :: bs =>
      if a.toNat < b.toNat then true
      else if b.toNat < a.toNat then false
      else chronoLtB as bs

/-- Chronological less-or-equal on timestamp strings. -/
def chronoLeB (a b : String) : Bool :=
  a == b || chronoLtB a.data b.data

/-- Demonstration task used to instantiate task-level theorems. -/
def demoTask : TrackerTask :=
  { id := "t1", title := "T", note := none, owner := .human, lane := .todo,
    status := .todo, effort := none, milestone := none, priority := none,
    createdAt := none }

/-- Demonstration task in lane `progress` with status `blocked`. -/
def demoBlockedProgressTask : TrackerTask :=
  { id := "t2", title := "T", note := none, owner := .ai, lane := .progress,
    status := .blocked, effort := none, milestone := none, priority := none,
    createdAt := none }

/-- C1: `normalize` is total over every decoded input (every JavaScript
value, `undefined`, `null` and non-objects included, determines a `RawDoc`,
the degenerate ones the all-`absent` one) and returns a document with
exactly the four top-level fields (the `TrackerState` record has no
others): `revision` is the input's value when that is a finite number and
1 otherwise, `updatedAt` is the input's value when that is a string and
the current time otherwise, and `tasks`/`messages` are the input's arrays
passed through element-for-element when arrays and empty otherwise. -/
theorem normalize_spec (raw : RawDoc) (now : String) :
    (∀ n, raw.revision = RawRevision.fin n → (normalize raw now).revision = n) ∧
    ((∀ n, raw.revision ≠ RawRevision.fin n) → (normalize raw now).revision = 1) ∧
    (∀ u, raw.updatedAt = RawUpdatedAt.str u → (normalize raw now).updatedAt = u) ∧
    (raw.updatedAt = RawUpdatedAt.absent → (normalize raw now).updatedAt = now) ∧
    (∀ xs, raw.tasks = RawTasks.arr xs → (normalize raw now).tasks = xs) ∧
    (raw.tasks = RawTasks.absent → (normalize raw now).tasks = []) ∧
    (∀ xs, raw.messages = RawMessages.arr xs → (normalize raw now).messages = xs) ∧
    (raw.messages = RawMessages.absent → (normalize raw now).messages = []) := by
  obtain ⟨rev, upd, tks, msgs⟩ := raw
  refine ⟨?_, ?_, ?_, ?_, ?_, ?_, ?_, ?_⟩
  · intro n h; subst h; rfl
  · intro h
    cases rev with
    | fin n => exact absurd rfl (h n)
    | nonFinite => rfl
    | absent => rfl
  · intro u h; subst h; rfl
  · intro h; subst h; rfl
  · intro xs h; subst h; rfl
  · intro h; subst h; rfl
  · intro xs h; subst h; rfl
  · intro h; subst h; rfl

/-- Witness for C1 at two concrete inputs: a fully-shaped raw document and
the all-absent one (the image of `undefined`/`null`/non-objects). -/
theorem normalize_spec_witness :
    (normalize ⟨.fin 7, .str "U", .arr [demoTask], .arr []⟩ "N").revision = 7 ∧
    (normalize ⟨.fin 7, .str "U", .arr [demoTask], .arr []⟩ "N").updatedAt = "U" ∧
    (normalize ⟨.fin 7, .str "U", .arr [demoTask], .arr []⟩ "N").tasks = [demoTask] ∧
    (normalize ⟨.fin 7, .str "U", .arr [demoTask], .arr []⟩ "N").messages = [] ∧
    (normalize ⟨.nonFinite, .absent, .absent, .absent⟩ "N").revision = 1 ∧
    (normalize ⟨.nonFinite, .absent, .absent, .absent⟩ "N").updatedAt = "N" ∧
    (normalize ⟨.nonFinite, .absent, .absent, .absent⟩ "N").tasks = [] ∧
    (normalize ⟨.nonFinite, .absent, .absent, .absent⟩ "N").messages = [] :=
  ⟨(normalize_spec _ "N").1 7 rfl,
   (normalize_spec _ "N").2.2.1 "U" rfl,
   (normalize_spec _ "N").2.2.2.2.1 [demoTask] rfl,
   (normalize_spec _ "N").2.2.2.2.2.2.1 [] rfl,
   (normalize_spec _ "N").2.1 (fun _ h => nomatch h),
   (normalize_spec _ "N").2.2.2.1 rfl,
   (normalize_spec _ "N").2.2.2.2.2.1 rfl,
   (normalize_spec _ "N").2.2.2.2.2.2.2 rfl⟩

/-- C8: for every input state (the typed `TrackerState`, i.e. exactly the
inputs whose revision is a finite number, whose `updatedAt` is a string
and whose `tasks` and `messages` are arrays), the store's `write`
preserves `revision`, `tasks` and `messages` and only replaces
`updatedAt` with the write-time clock value; in particular `write` by
itself never increments `revision` — any increment happens in the caller
before `write` is invoked. -/
theorem write_frame_spec (s : TrackerState) (now : String) :
    (write s now).revision = s.revision ∧ (write s now).tasks = s.tasks ∧
    (write s now).messages = s.messages ∧ (write s now).updatedAt = now :=
  ⟨rfl, rfl, rfl, rfl⟩

/-- C6: along the save path (the webview's `saveState` posting its
payload through `saveFromWebview` into the store's `write`), the stored
revision is the held revision incremented by exactly 1, hence strictly
greater; the initial document starts at revision 1. -/
theorem saveStatePath_revision_spec (s : TrackerState) (tView tWrite t0 : String) :
    (saveStatePath s tView tWrite).revision = s.revision + 1 ∧
    s.revision < (saveStatePath s tView tWrite).revision ∧
    (defaultState t0).revision = 1 := by
  have h : (if s.revision = 0 then (0 : Int) else s.revision) = s.revision := by
    split
    · omega
    · rfl
  refine ⟨?_, ?_, rfl⟩
  · show (if s.revision = 0 then (0 : Int) else s.revision) + 1 = s.revision + 1
    rw [h]
  · show s.revision < (if s.revision = 0 then (0 : Int) else s.revision) + 1
    rw [h]; omega

/-- C4 counterexample: `write` stamps `updatedAt` with the write-time
clock reading, which is not guaranteed to dominate the caller's value:
for an input document carrying a future `updatedAt` (e.g. a hand-edited
file) the stored value is strictly below the value passed in, refuting
"greater than or equal for every input". ISO-8601 strings of equal
format compare chronologically as strings. -/
theorem write_updatedAt_regress_counterexample :
    chronoLeB "2999-01-01T00:00:00.000Z"
      ((write { revision := 1, updatedAt := "2999-01-01T00:00:00.000Z",
                tasks := [], messages := [] }
          "2026-10-12T00:00:00.000Z").updatedAt) = false := by
  decide

/-- C4 amended: `write` sets `updatedAt` to the current time at write,
ignoring whatever the caller supplied; the stored value is greater than
or equal to the value passed in whenever the write-time clock reading
dominates it (as with values stamped by earlier writes of a monotone
wall clock), but not for arbitrary caller-supplied values. -/
theorem write_updatedAt_spec (s : TrackerState) (now : String) :
    (write s now).updatedAt = now ∧
    (chronoLeB s.updatedAt now = true →
      chronoLeB s.updatedAt ((write s now).updatedAt) = true) :=
  ⟨rfl, fun h => h⟩

/-- Witness for the amended C4 at a concrete state and clock reading. -/
theorem write_updatedAt_spec_witness :
    (write { revision := 1, updatedAt := "2026-10-12T00:00:00.000Z",
             tasks := [], messages := [] }
        "2026-10-12T00:00:00.001Z").updatedAt = "2026-10-12T00:00:00.001Z" ∧
    chronoLeB "2026-10-12T00:00:00.000Z"
      ((write { revision := 1, updatedAt := "2026-10-12T00:00:00.000Z",
                tasks := [], messages := [] }
          "2026-10-12T00:00:00.001Z").updatedAt) = true :=
  ⟨(write_updatedAt_spec ⟨1, "2026-10-12T00:00:00.000Z", [], []⟩
      "2026-10-12T00:00:00.001Z").1,
   (write_updatedAt_spec ⟨1, "2026-10-12T00:00:00.000Z", [], []⟩
      "2026-10-12T00:00:00.001Z").2 (by decide)⟩

/-- C9: the advance action only moves a task's lane forward along
todo → progress → done and never regresses; a task in lane `todo`
advanced twice ends at lane `done`, status `done`, and a third advance
leaves the task completely unchanged (the terminal state is a fixed
point). -/
theorem advance_forward_spec (t : TrackerTask) :
    laneIdx t.lane ≤ laneIdx (advance t).lane ∧
    (t.lane = .todo →
      (advance (advance t)).lane = .done ∧
      (advance (advance t)).status = .done ∧
      advance (advance (advance t)) = advance (advance t)) := by
  obtain ⟨id, title, note, owner, lane, status, effort, milestone, priority, createdAt⟩ := t
  constructor
  · cases lane <;> simp [advance, nextLane, laneIdx]
  · intro h
    subst h
    exact ⟨rfl, rfl, rfl⟩

/-- Witness for C9 at a concrete task in lane `todo`. -/
theorem advance_forward_spec_witness :
    laneIdx demoTask.lane ≤ laneIdx (advance demoTask).lane ∧
    (advance (advance demoTask)).lane = .done ∧
    (advance (advance demoTask)).status = .done ∧
    advance (advance (advance demoTask)) = advance (advance demoTask) :=
  ⟨(advance_forward_spec demoTask).1, (advance_forward_spec demoTask).2 rfl⟩

/-- C10 counterexample: unblocking a task in lane `todo` does not restore
the lane-implied status `todo`: the handler's
`task.lane === "done" ? "done" : "progress"` yields `progress`. -/
theorem toggleBlock_todo_counterexample :
    (toggleBlock { id := "t1", title := "T", note := none, owner := .human,
                   lane := .todo, status := .blocked, effort := none,
                   milestone := none, priority := none,
                   createdAt := none }).status = TaskStatus.progress ∧
    (toggleBlock { id := "t1", title := "T", note := none, owner := .human,
                   lane := .todo, status := .blocked, effort := none,
                   milestone := none, priority := none,
                   createdAt := none }).status ≠ TaskStatus.todo := by
  decide

/-- C10 amended: toggling block on a task whose status is not `blocked`
sets status `blocked` and changes nothing else; toggling a blocked task
keeps the lane and sets status to `done` when the lane is `done` and to
`progress` otherwise — so a blocked task in lane `progress` is restored
to `progress`, but a blocked task in lane `todo` comes back as
`progress`, not `todo`. -/
theorem toggleBlock_spec (t : TrackerTask) :
    (t.status ≠ .blocked → toggleBlock t = { t with status := TaskStatus.blocked }) ∧
    (t.status = .blocked →
      (toggleBlock t).lane = t.lane ∧
      (toggleBlock t).status =
        (if t.lane = .done then TaskStatus.done else TaskStatus.progress)) := by
  obtain ⟨id, title, note, owner, lane, status, effort, milestone, priority, createdAt⟩ := t
  constructor
  · intro h
    cases status with
    | blocked => exact absurd rfl h
    | todo => rfl
    | progress => rfl
    | done => rfl
  · intro h
    subst h
    exact ⟨rfl, rfl⟩

/-- Witness for the amended C10 at a non-blocked task and at a blocked
task in lane `progress`. -/
theorem toggleBlock_spec_witness :
    toggleBlock demoTask = { demoTask with status := TaskStatus.blocked } ∧
    (toggleBlock demoBlockedProgressTask).lane = demoBlockedProgressTask.lane ∧
    (toggleBlock demoBlockedProgressTask).status =
      (if demoBlockedProgressTask.lane = .done then TaskStatus.done
       else TaskStatus.progress) :=
  ⟨(toggleBlock_spec demoTask).1 (by decide),
   (toggleBlock_spec demoBlockedProgressTask).2 rfl⟩

/-- C7 counterexample: the seed roadmap's "M1 Foundation" milestone has no
task in lane `done` at all (its two tasks sit in lanes `progress` and
`todo`), so the seeded document does not have 2 done tasks in M1. -/
theorem seedRoadmap_m1_done_counterexample :
    ((seedRoadmap true { revision := 42, updatedAt := "X", tasks := [],
                         messages := [] } "T1" "T2").tasks.filter
      (fun t => t.milestone == some "M1 Foundation" &&
        t.lane == TaskLane.done)).length ≠ 2 := by
  decide

/-- C7 amended: after operator confirmation, the seed roadmap operation
fully replaces arbitrary prior content: the stored tasks and messages are
exactly the seed arrays and the revision resets to 1, where the seed has
5 tasks across 3 milestones with 0 done in "M1 Foundation" and 0 done in
"M2 Collaboration", and exactly one message, from ai to human with
resolved false. -/
theorem seedRoadmap_spec (prev : TrackerState) (tSeed tWrite : String) :
    (seedRoadmap true prev tSeed tWrite).tasks = (defaultState tSeed).tasks ∧
    (seedRoadmap true prev tSeed tWrite).messages = (defaultState tSeed).messages ∧
    (seedRoadmap true prev tSeed tWrite).revision = 1 ∧
    (seedRoadmap true prev tSeed tWrite).tasks.length = 5 ∧
    ((seedRoadmap true prev tSeed tWrite).tasks.filterMap
      TrackerTask.milestone).dedup.length = 3 ∧
    ((seedRoadmap true prev tSeed tWrite).tasks.filter
      (fun t => t.milestone == some "M1 Foundation" &&
        t.lane == TaskLane.done)).length = 0 ∧
    ((seedRoadmap true prev tSeed tWrite).tasks.filter
      (fun t => t.milestone == some "M2 Collaboration" &&
        t.lane == TaskLane.done)).length = 0 ∧
    (seedRoadmap true prev tSeed tWrite).messages.length = 1 ∧
    (seedRoadmap true prev tSeed tWrite).messages.all
      (fun m => m.from_ == TaskOwner.ai && m.to_ == TaskOwner.human &&
        !m.resolved) = true :=
  ⟨rfl, rfl, rfl, rfl, rfl, rfl, rfl, rfl, rfl⟩

/-- C3 counterexample: on the recovery path `read` returns the `created`
document itself, while the document serialized to disk is the value of
`write(created)`, whose `updatedAt` is the (generally later) write-time
clock reading — so when the synthesis-time and write-time clock readings
differ, the returned document is not identical to the written one. -/
theorem read_failure_written_ne_returned_counterexample :
    (read none "2026-01-01T00:00:00.000Z" "2026-01-01T00:00:00.001Z").written ≠
      some (read none "2026-01-01T00:00:00.000Z"
        "2026-01-01T00:00:00.001Z").returned := by
  decide

/-- C3 amended: if `read` fails to load or decode the backing file it
never propagates the error: it synthesizes the default seed document,
persists it via `write`, and returns a document that agrees with the
written one on `revision`, `tasks` and `messages`; the written copy's
`updatedAt` is the write-time stamp, the returned copy's the
synthesis-time stamp, so the two are identical exactly when those two
clock readings coincide. -/
theorem read_failure_recovery_spec (t1 t2 : String) (w : TrackerState)
    (h : (read none t1 t2).written = some w) :
    (read none t1 t2).returned = defaultState t1 ∧
    w.revision = (read none t1 t2).returned.revision ∧
    w.tasks = (read none t1 t2).returned.tasks ∧
    w.messages = (read none t1 t2).returned.messages ∧
    w.updatedAt = t2 ∧
    (read none t1 t2).returned.updatedAt = t1 := by
  have hw : w = write (defaultState t1) t2 := by
    have hr : (read none t1 t2).written = some (write (defaultState t1) t2) := rfl
    rw [hr] at h
    exact (Option.some.inj h).symm
  subst hw
  exact ⟨rfl, rfl, rfl, rfl, rfl, rfl⟩

/-- Witness for the amended C3 with both clock readings equal to "T". -/
theorem read_failure_recovery_spec_witness :
    (read none "T" "T").returned = defaultState "T" ∧
    (write (defaultState "T") "T").revision = (read none "T" "T").returned.revision ∧
    (write (defaultState "T") "T").tasks = (read none "T" "T").returned.tasks ∧
    (write (defaultState "T") "T").messages = (read none "T" "T").returned.messages ∧
    (write (defaultState "T") "T").updatedAt = "T" ∧
    (read none "T" "T").returned.updatedAt = "T" :=
  read_failure_recovery_spec "T" "T" (write (defaultState "T") "T") rfl

/-- C5: `processHumanMessages` performs no write and leaves the document
unchanged on every early exit — when no unresolved human→ai message
exists it reports the "none pending" advisory and stops, and when the
quick pick is cancelled, or the reply prompt is cancelled or answered
with the empty string, it stops silently; in all those cases the outcome
is never a write of any document. -/
theorem processHumanMessages_early_exit_spec (s : TrackerState)
    (pick response : Option String) (freshId nowMsg nowWrite : String)
    (h : s.messages.filter isPendingMsg = [] ∨ pick = none ∨
         response = none ∨ response = some "") :
    (∀ s', processHumanMessages s pick response freshId nowMsg nowWrite ≠
      ProcessOutcome.wrote s') ∧
    (s.messages.filter isPendingMsg = [] →
      processHumanMessages s pick response freshId nowMsg nowWrite =
        ProcessOutcome.nonePending) := by
  constructor
  · intro s' hc
    rcases h with h | h | h | h
    · simp [processHumanMessages, h] at hc
    · subst h
      simp only [processHumanMessages] at hc
      split at hc
      · exact ProcessOutcome.noConfusion hc
      · exact ProcessOutcome.noConfusion hc
    · subst h
      rcases pick with _ | pid
      · simp only [processHumanMessages] at hc
        split at hc
        · exact ProcessOutcome.noConfusion hc
        · exact ProcessOutcome.noConfusion hc
      · simp only [processHumanMessages] at hc
        split at hc
        · exact ProcessOutcome.noConfusion hc
        · split at hc
          · exact ProcessOutcome.noConfusion hc
          · exact ProcessOutcome.noConfusion hc
    · subst h
      rcases pick with _ | pid
      · simp only [processHumanMessages] at hc
        split at hc
        · exact ProcessOutcome.noConfusion hc
        · exact ProcessOutcome.noConfusion hc
      · simp [processHumanMessages] at hc
        split at hc
        · exact ProcessOutcome.noConfusion hc
        · split at hc
          · exact ProcessOutcome.noConfusion hc
          · exact ProcessOutcome.noConfusion hc
  · intro hp
    simp [processHumanMessages, hp]

/-- Witness for C5 at a document with no messages and a cancelled pick. -/
theorem processHumanMessages_early_exit_spec_witness :
    processHumanMessages ⟨1, "T", [], []⟩ none none "f" "n" "w" ≠
      ProcessOutcome.wrote (defaultState "T") ∧
    processHumanMessages ⟨1, "T", [], []⟩ none none "f" "n" "w" =
      ProcessOutcome.nonePending :=
  ⟨(processHumanMessages_early_exit_spec ⟨1, "T", [], []⟩ none none "f" "n" "w"
      (Or.inr (Or.inl rfl))).1 (defaultState "T"),
   (processHumanMessages_early_exit_spec ⟨1, "T", [], []⟩ none none "f" "n" "w"
      (Or.inr (Or.inl rfl))).2 rfl⟩

/-- C2: a successful run of `processHumanMessages` — some message is
pending, the operator picks one (found as `source`) and supplies a
non-empty reply — writes the document in which the selected message's
`resolved` is true, every other message is unchanged, exactly one new
message is appended with `from = ai`, `to = human`, `type = "response"`,
title `"Re: "` prepended to the original title, body the supplied reply,
`resolved = false` and `inReplyTo` the selected message's id, and whose
revision is the read revision plus 1.  Message ids are assumed unique
(the spec's Message invariant), which lets the source's in-place mutation
of the found message object be read as an update of exactly that
message. -/
theorem processHumanMessages_success_spec (s : TrackerState)
    (pid resp freshId nowMsg nowWrite : String) (source : TrackerMessage)
    (hnodup : (s.messages.map TrackerMessage.id).Nodup)
    (hfind : (s.messages.filter isPendingMsg).find? (fun m => m.id == pid) =
      some source)
    (hresp : resp ≠ "") :
    processHumanMessages s (some pid) (some resp) freshId nowMsg nowWrite =
      ProcessOutcome.wrote
        { revision := s.revision + 1
          updatedAt := nowWrite
          tasks := s.tasks
          messages :=
            (s.messages.map fun m =>
              if m = source then { m with resolved := true } else m) ++
            [{ id := freshId, from_ := .ai, to_ := .human, type := "response",
               title := "Re: " ++ source.title, body := resp,
               createdAt := nowMsg, resolved := false,
               inReplyTo := some source.id }] } := by
  have hmemp : source ∈ s.messages.filter isPendingMsg :=
    List.mem_of_find?_eq_some hfind
  have hmem : source ∈ s.messages := List.mem_of_mem_filter hmemp
  have hlen : ¬ (s.messages.filter isPendingMsg).length = 0 := by
    intro h0
    rw [List.length_eq_zero] at h0
    rw [h0] at hmemp
    exact (List.not_mem_nil source) hmemp
  have hmap : (s.messages.map fun m =>
      if m.id == source.id then { m with resolved := true } else m) =
      (s.messages.map fun m =>
      if m = source then { m with resolved := true } else m) := by
    apply List.map_congr_left
    intro m hm
    by_cases hms : m = source
    · subst hms
      simp
    · have hid : ¬ m.id = source.id := fun hideq =>
        hms (List.inj_on_of_nodup_map hnodup hm hmem hideq)
      simp [hms, hid]
  simp only [processHumanMessages]
  rw [if_neg hlen, hfind]
  show (if resp = "" then ProcessOutcome.cancelled else _) = _
  rw [if_neg hresp]
  refine congrArg ProcessOutcome.wrote ?_
  show (⟨s.revision + 1, nowWrite, s.tasks,
    (s.messages.map fun m =>
      if m.id == source.id then { m with resolved := true } else m) ++
    [{ id := freshId, from_ := .ai, to_ := .human, type := "response",
       title := "Re: " ++ source.title, body := resp,
       createdAt := nowMsg, resolved := false,
       inReplyTo := some source.id }]⟩ : TrackerState) = _
  rw [hmap]

/-- Witness for C2: a document holding one pending human→ai message,
with that message picked and the reply "ok". -/
theorem processHumanMessages_success_spec_witness :
    processHumanMessages
        ⟨1, "T", [], [⟨"m1", .human, .ai, "note", "Q", "B", "T0", false, none⟩]⟩
        (some "m1") (some "ok") "msg-2" "T1" "T2" =
      ProcessOutcome.wrote
        { revision := (1 : Int) + 1
          updatedAt := "T2"
          tasks := []
          messages :=
            (([⟨"m1", .human, .ai, "note", "Q", "B", "T0", false, none⟩] :
                List TrackerMessage).map fun m =>
              if m = ⟨"m1", .human, .ai, "note", "Q", "B", "T0", false, none⟩
              then { m with resolved := true } else m) ++
            [{ id := "msg-2", from_ := .ai, to_ := .human, type := "response",
               title := "Re: " ++ "Q", body := "ok",
               createdAt := "T1", resolved := false,
               inReplyTo := some "m1" }] } :=
  processHumanMessages_success_spec
    ⟨1, "T", [], [⟨"m1", .human, .ai, "note", "Q", "B", "T0", false, none⟩]⟩
    "m1" "ok" "msg-2" "T1" "T2"
    ⟨"m1", .human, .ai, "note", "Q", "B", "T0", false, none⟩
    (by decide) rfl (by decide)

end TrackerSync
